import Mathlib

/-!
Verification development for the `ai-data-analysis-agent` repository:
a shallow embedding of `src/agent.py` (the `DataAnalysisAgent` class) and
`src/main.py` (startup checks and the interactive command loop).

The external reasoning engine (`agent_executor.invoke`) is modelled as an
oracle: each call either succeeds with an output string (`response['output']`)
or fails with an exception description.  Everything this repository itself
computes — history bookkeeping, error wrapping, command classification,
history display, startup checks — is translated directly from the source.
-/

/-- Embedding of Python `str.lower()` (ASCII case folding on each character,
as performed by `user_input.lower()` in `main.py`). -/
def pyLower (s : String) : String :=
  String.mk (s.data.map Char.toLower)

/-- Character class stripped by Python `str.strip()`: the ASCII whitespace
characters space, tab, newline, carriage return, vertical tab, form feed. -/
def pyIsSpace (c : Char) : Bool :=
  c.toNat = 32 || c.toNat = 9 || c.toNat = 10 || c.toNat = 13 || c.toNat = 11 || c.toNat = 12

/-- Embedding of Python `str.strip()`: drop leading and trailing whitespace. -/
def pyStrip (s : String) : String :=
  String.mk ((s.data.dropWhile pyIsSpace).rdropWhile pyIsSpace)

/-- Outcome of one call to the external reasoning engine
(`self.agent_executor.invoke(inputs)` in `agent.py`): either a response whose
`output` entry is the answer text, or a raised exception with description
`str(e)`.  The engine is external to the repository, so it is an oracle here. -/
inductive EngineOutcome where
  | success (output : String)
  | failure (description : String)
deriving DecidableEq

/-- Embedding of the `PromptTemplate` value built in `DataAnalysisAgent.__init__`
(`agent.py` lines 35-59). -/
structure PromptTemplate where
  input_variables : List String
  template : String
deriving DecidableEq

/-- Embedding of the `AgentExecutor` configuration built in
`DataAnalysisAgent.__init__` (`agent.py` lines 69-75). -/
structure AgentExecutor where
  verbose : Bool
  max_iterations : Nat
  handle_parsing_errors : Bool
deriving DecidableEq

/-- State of a `DataAnalysisAgent` instance (`agent.py`).  The language-model
handle `self.llm` is an external object with no state observable by this
repository and is not carried. -/
structure DataAnalysisAgent where
  csv_file_path : String
  chat_history : List (String × String)
  python_tool : String
  tools : List String
  prompt_template : PromptTemplate
  agent_executor : AgentExecutor
deriving DecidableEq

/-- The literal template string of `self.prompt_template` (`agent.py`
lines 37-58), including the indentation that Python keeps inside the
triple-quoted literal. -/
def reactTemplateText : String := "Here is a CSV file located at {csv_file_path}. Please answer the following questions as best you can. You have access to the following tools:

            {tools}

            Chat history from previous conversations:
            {chat_history}

            Use the following format:

            Question: the input question you must answer
            Thought: you should always think about what to do
            Action: the action to take, should be one of [{tool_names}]
            Action Input: the input to the action
            Observation: the result of the action
            ... (this Thought/Action/Action Input/Observation can be repeated zero or 3 times)
            Thought: I now know the final answer
            Final Answer: the final answer to the original input question

            Begin!

            Question: {query}
            {agent_scratchpad}"

/-- Embedding of `DataAnalysisAgent.__init__` (`agent.py` lines 18-75). -/
def DataAnalysisAgent.init (csv_file_path : String) : DataAnalysisAgent :=
  { csv_file_path := csv_file_path
    chat_history := []
    python_tool := "Python_REPL"
    tools := ["Python_REPL"]
    prompt_template :=
      { input_variables := ["tools", "chat_history", "tool_names", "query", "agent_scratchpad"]
        template := reactTemplateText }
    agent_executor :=
      { verbose := true
        max_iterations := 10
        handle_parsing_errors := true } }

/-- Embedding of `DataAnalysisAgent.chat` (`agent.py` lines 86-123): on engine
success, append `(query, output)` to the history and return the output; on any
exception `e`, build `"Execution error: " ++ str(e)`, append it to the history
and return it.  The print statements are observability only and not modelled. -/
def DataAnalysisAgent.chat (a : DataAnalysisAgent) (query : String)
    (result : EngineOutcome) : String × DataAnalysisAgent :=
  match result with
  | .success output =>
      (output, { a with chat_history := a.chat_history ++ [(query, output)] })
  | .failure e =>
      let error_msg := "Execution error: " ++ e
      (error_msg, { a with chat_history := a.chat_history ++ [(query, error_msg)] })

/-- Embedding of `DataAnalysisAgent.clear_history` (`agent.py` lines 125-128). -/
def DataAnalysisAgent.clear_history (a : DataAnalysisAgent) : DataAnalysisAgent :=
  { a with chat_history := [] }

/-- Embedding of `DataAnalysisAgent.get_history` (`agent.py` lines 130-137). -/
def DataAnalysisAgent.get_history (a : DataAnalysisAgent) : List (String × String) :=
  a.chat_history

/-- Run a sequence of `chat` calls in which every engine invocation succeeds:
`calls` lists, in order, each call's question together with the output the
engine returns for it. -/
def DataAnalysisAgent.runSuccessCalls (a : DataAnalysisAgent)
    (calls : List (String × String)) : DataAnalysisAgent :=
  calls.foldl (fun st c => (st.chat c.1 (EngineOutcome.success c.2)).2) a

/-- C1: a `chat` call whose engine invocation fails with description `e`
returns the diagnostic string `"Execution error: " ++ e`, appends exactly the
one turn `(query, diagnostic)` to the history, and (being a total function)
propagates no exception. -/
theorem chat_failure_returns_diagnostic (a : DataAnalysisAgent) (query e : String) :
    (a.chat query (EngineOutcome.failure e)).1 = "Execution error: " ++ e ∧
    (a.chat query (EngineOutcome.failure e)).2.chat_history =
      a.chat_history ++ [(query, "Execution error: " ++ e)] := by
  constructor <;> rfl

/-- Successful calls append their `(question, answer)` pairs in order. -/
theorem runSuccessCalls_history (a : DataAnalysisAgent) (calls : List (String × String)) :
    (a.runSuccessCalls calls).chat_history = a.chat_history ++ calls := by
  induction calls generalizing a with
  | nil => simp [DataAnalysisAgent.runSuccessCalls]
  | cons c rest ih =>
      simp only [DataAnalysisAgent.runSuccessCalls, List.foldl_cons] at *
      rw [ih]
      simp [DataAnalysisAgent.chat]

/-- C2: every successful `chat` call returns the engine's output text, and a
sequence of successful calls appends exactly its list of
`(question, answer)` turns in call order; starting from an empty history the
final history length equals the number of calls made. -/
theorem chat_success_history (a : DataAnalysisAgent) (calls : List (String × String)) :
    (∀ q out, (a.chat q (EngineOutcome.success out)).1 = out) ∧
    (a.runSuccessCalls calls).chat_history = a.chat_history ++ calls ∧
    (a.chat_history = [] → (a.runSuccessCalls calls).chat_history.length = calls.length) := by
  refine ⟨fun q out => rfl, runSuccessCalls_history a calls, fun hemp => ?_⟩
  rw [runSuccessCalls_history a calls, hemp]
  simp

/-- C2 witness: two successful calls from an empty history yield exactly those
two turns in order. -/
theorem chat_success_history_witness :
    ((DataAnalysisAgent.init "data.csv").runSuccessCalls
        [("show me basic statistics", "Mean age is 29.7"), ("q2", "a2")]).chat_history =
      [("show me basic statistics", "Mean age is 29.7"), ("q2", "a2")] ∧
    ((DataAnalysisAgent.init "data.csv").runSuccessCalls
        [("show me basic statistics", "Mean age is 29.7"), ("q2", "a2")]).chat_history.length = 2 := by
  have h := chat_success_history (DataAnalysisAgent.init "data.csv")
    [("show me basic statistics", "Mean age is 29.7"), ("q2", "a2")]
  exact ⟨by rw [h.2.1]; rfl, h.2.2 rfl⟩

/-- C3: `clear_history` always leaves an empty history, whatever its prior
size. -/
theorem clear_history_empties (a : DataAnalysisAgent) :
    (a.clear_history).chat_history.length = 0 ∧ (a.clear_history).chat_history = [] := by
  exact ⟨rfl, rfl⟩

/-- The three command word lists of the interactive loop (`main.py`
lines 90, 94, 98). -/
def quitCommands : List String := ["quit", "exit", "q"]

/-- Commands that clear the history (`main.py` line 94). -/
def clearCommands : List String := ["clear", "clear history"]

/-- Commands that display the history (`main.py` line 98). -/
def historyCommands : List String := ["history", "show history"]

/-- The action the interactive loop takes for one input line. -/
inductive ShellAction where
  | quit
  | clearHistory
  | showHistory
  | reprompt
  | ask (question : String)
deriving DecidableEq

/-- Embedding of the dispatch chain of `main` (`main.py` lines 90-114): the
lowercased whole line is compared, untrimmed, against the command lists in
order (quit, clear, history); then an input that is empty after stripping asks
the user to re-enter; anything else is forwarded to `agent.chat` verbatim. -/
def classify (user_input : String) : ShellAction :=
  if pyLower user_input ∈ quitCommands then .quit
  else if pyLower user_input ∈ clearCommands then .clearHistory
  else if pyLower user_input ∈ historyCommands then .showHistory
  else if pyStrip user_input = "" then .reprompt
  else .ask user_input

/-- Embedding of the history-printing loop (`main.py` lines 102-104):
`for i, (q, a) in enumerate(history, 1)` prints the question line and then the
answer line, truncating answers longer than 100 characters to their first 100
characters followed by `"..."`. -/
def historyLines : Nat → List (String × String) → List String
  | _, [] => []
  | i, (q, a) :: rest =>
      (toString i ++ ". Q: " ++ q) ::
      (if a.data.length > 100 then "   A: " ++ String.mk (a.data.take 100) ++ "..."
       else "   A: " ++ a) ::
      historyLines (i + 1) rest

/-- Embedding of the `history` branch of `main` (`main.py` lines 98-107):
header plus numbered turns when the history is non-empty, a no-history notice
otherwise. -/
def showHistoryOutput (history : List (String × String)) : List String :=
  if history.isEmpty then ["No chat history yet."]
  else "\n📝 Chat History:" :: historyLines 1 history

/-- One event read by the interactive loop: a line from standard input, or an
interrupt signal raised during `input()` (`main.py` lines 88, 117-119). -/
inductive ShellEvent where
  | line (s : String)
  | interrupt

/-- Embedding of the `while True` loop of `main` (`main.py` lines 86-122),
driven by a list of input events and an engine oracle (mapping the query and
the current history to that call's outcome).  Returns the final agent state
and the number of `agent.chat` calls made.  An interrupt or a quit command
breaks the loop. -/
def runShell (engine : String → List (String × String) → EngineOutcome) :
    DataAnalysisAgent → List ShellEvent → DataAnalysisAgent × Nat
  | a, [] => (a, 0)
  | a, ShellEvent.interrupt :: _ => (a, 0)
  | a, ShellEvent.line s :: rest =>
      match classify s with
      | .quit => (a, 0)
      | .clearHistory => runShell engine a.clear_history rest
      | .showHistory => runShell engine a rest
      | .reprompt => runShell engine a rest
      | .ask q =>
          let a' := (a.chat q (engine q a.chat_history)).2
          let r := runShell engine a' rest
          (r.1, r.2 + 1)

/-- Process environment and filesystem facts visible to `main.py`:
the value of `OPENAI_API_KEY` (absent, or present with a value) and whether
the file `data.csv` exists. -/
structure Environment where
  openai_api_key : Option String
  csv_exists : Bool

/-- Embedding of `load_environment` (`main.py` lines 15-23): Python's
`if not api_key` treats both an absent variable and an empty string as
missing and raises `ValueError`. -/
def load_environment (env : Environment) : Except String String :=
  match env.openai_api_key with
  | none => Except.error "OPENAI_API_KEY not found in environment variables. Please check your .env file."
  | some k =>
      if k = "" then
        Except.error "OPENAI_API_KEY not found in environment variables. Please check your .env file."
      else Except.ok k

/-- Result of one run of `main` (`main.py` lines 58-126): the error lines it
printed, whether the interactive loop was entered, and the process exit
status.  `main` never calls `sys.exit`, so the interpreter exits with
status 0 on every return path. -/
structure MainResult where
  errors : List String
  enteredLoop : Bool
  exitCode : Nat
deriving DecidableEq

/-- Embedding of `main` (`main.py` lines 58-126): a `ValueError` from
`load_environment` is caught by the outer handler, which prints a message and
returns; a missing `data.csv` prints a message and returns; otherwise the
agent is constructed and the interactive loop runs.  Every path returns
normally, so the exit code is 0. -/
def pyMain (env : Environment) (engine : String → List (String × String) → EngineOutcome)
    (events : List ShellEvent) : MainResult :=
  match load_environment env with
  | Except.error e =>
      { errors := ["❌ Failed to initialize: " ++ e,
                   "Please check your configuration and try again."]
        enteredLoop := false
        exitCode := 0 }
  | Except.ok _ =>
      if env.csv_exists then
        let _ := runShell engine (DataAnalysisAgent.init "data.csv") events
        { errors := [], enteredLoop := true, exitCode := 0 }
      else
        { errors := ["❌ Error: CSV file 'data.csv' not found.",
                     "Please ensure your data file exists and update the path in main.py"]
          enteredLoop := false
          exitCode := 0 }

/-- Index computation for the history-display lines: the turn stored at
position `k` produces its question line at output position `2 * k` (numbered
`i + k` when enumeration starts at `i`) and its answer line right after it. -/
theorem historyLines_getElem (i k : Nat) (h : List (String × String)) (q a : String)
    (hk : h[k]? = some (q, a)) :
    (historyLines i h)[2 * k]? = some (toString (i + k) ++ ". Q: " ++ q) ∧
    (historyLines i h)[2 * k + 1]? =
      some (if a.data.length > 100 then "   A: " ++ String.mk (a.data.take 100) ++ "..."
            else "   A: " ++ a) := by
  induction h generalizing i k with
  | nil => simp at hk
  | cons p rest ih =>
      obtain ⟨q', a'⟩ := p
      cases k with
      | zero =>
          simp only [List.getElem?_cons_zero, Option.some.injEq, Prod.mk.injEq] at hk
          obtain ⟨hq, ha⟩ := hk
          subst hq; subst ha
          simp [historyLines]
      | succ k =>
          simp only [List.getElem?_cons_succ] at hk
          have hrec := ih (i + 1) k hk
          have h2 : 2 * (k + 1) = (2 * k + 1) + 1 := by omega
          rw [h2]
          simp only [historyLines, List.getElem?_cons_succ]
          have h4 : i + 1 + k = i + (k + 1) := by omega
          rw [← h4]
          exact hrec

/-- C4: the history display prints a no-history notice for an empty history;
otherwise the turn at position `k` appears as the `1`-based entry `k + 1`, in
order, its question line followed by its answer line, where an answer longer
than 100 characters is shown as exactly its first 100 characters followed by
the ellipsis marker and an answer of at most 100 characters is shown
unmodified. -/
theorem showHistoryOutput_spec (h : List (String × String)) :
    (h = [] → showHistoryOutput h = ["No chat history yet."]) ∧
    (∀ k q a, h[k]? = some (q, a) →
      (showHistoryOutput h)[2 * k + 1]? = some (toString (k + 1) ++ ". Q: " ++ q) ∧
      ∃ shown,
        (showHistoryOutput h)[2 * k + 2]? = some ("   A: " ++ shown) ∧
        (a.data.length > 100 →
          shown = String.mk (a.data.take 100) ++ "..." ∧ (a.data.take 100).length = 100) ∧
        (a.data.length ≤ 100 → shown = a)) := by
  constructor
  · intro he; subst he; rfl
  · intro k q a hk
    have hne : h ≠ [] := by
      intro he; subst he; simp at hk
    have hout : showHistoryOutput h = "\n📝 Chat History:" :: historyLines 1 h := by
      simp [showHistoryOutput, List.isEmpty_iff, hne]
    have hrec := historyLines_getElem 1 k h q a hk
    constructor
    · rw [hout]
      simp only [List.getElem?_cons_succ]
      rw [Nat.add_comm 1 k] at hrec
      exact hrec.1
    · by_cases hlen : a.data.length > 100
      · refine ⟨String.mk (a.data.take 100) ++ "...", ?_, fun _ => ⟨rfl, ?_⟩, fun hle => ?_⟩
        · rw [hout]
          have h2 : 2 * k + 2 = (2 * k + 1) + 1 := by omega
          rw [h2]
          simp only [List.getElem?_cons_succ]
          rw [hrec.2, if_pos hlen, String.append_assoc]
        · rw [List.length_take]
          omega
        · omega
      · refine ⟨a, ?_, fun hgt => absurd hgt hlen, fun _ => rfl⟩
        rw [hout]
        have h2 : 2 * k + 2 = (2 * k + 1) + 1 := by omega
        rw [h2]
        simp only [List.getElem?_cons_succ]
        rw [hrec.2, if_neg hlen]

/-- C4 witness: a two-turn history, one short answer and one 150-character
answer, displays as expected. -/
theorem showHistoryOutput_spec_witness :
    (showHistoryOutput [] = ["No chat history yet."]) ∧
    (showHistoryOutput [("hi", "ok")])[1]? = some "1. Q: hi" ∧
    (∃ shown, (showHistoryOutput [("hi", "ok")])[2]? = some ("   A: " ++ shown) ∧
      (("ok" : String).data.length > 100 →
        shown = String.mk (("ok" : String).data.take 100) ++ "..." ∧
        (("ok" : String).data.take 100).length = 100) ∧
      (("ok" : String).data.length ≤ 100 → shown = "ok")) := by
  refine ⟨(showHistoryOutput_spec []).1 rfl, ?_, ?_⟩
  · have h := ((showHistoryOutput_spec [("hi", "ok")]).2 0 "hi" "ok" rfl).1
    simpa using h
  · have h := ((showHistoryOutput_spec [("hi", "ok")]).2 0 "hi" "ok" rfl).2
    simpa using h

/-- C5: command recognition lowercases the whole line, so every input whose
lowercase form is one of `quit`, `exit`, `q` — and only such inputs — is
classified as quit, checked before every other command; a quit line ends the
loop immediately with the agent state untouched and zero `chat` calls, and
the process exit status is 0. -/
theorem quit_commands_terminate (s : String)
    (engine : String → List (String × String) → EngineOutcome)
    (a : DataAnalysisAgent) (rest : List ShellEvent) :
    ((pyLower s ∈ quitCommands) ↔ classify s = ShellAction.quit) ∧
    classify "quit" = ShellAction.quit ∧
    classify "QUIT" = ShellAction.quit ∧
    classify "q" = ShellAction.quit ∧
    (classify s = ShellAction.quit →
      runShell engine a (ShellEvent.line s :: rest) = (a, 0) ∧
      ∀ env events, (pyMain env engine events).exitCode = 0) := by
  refine ⟨⟨fun hmem => ?_, fun hcl => ?_⟩, by decide, by decide, by decide, fun hcl => ⟨?_, ?_⟩⟩
  · simp [classify, hmem]
  · simp only [classify] at hcl
    split at hcl
    · assumption
    · split at hcl
      · simp at hcl
      · split at hcl
        · simp at hcl
        · split at hcl
          · simp at hcl
          · simp at hcl
  · simp [runShell, hcl]
  · intro env events
    unfold pyMain
    cases hload : load_environment env with
    | error e => rfl
    | ok k => by_cases hcsv : env.csv_exists <;> simp [hcsv]

/-- C5 witness: the line `"QUIT"` terminates the loop at once, leaving the
agent untouched and making zero `chat` calls. -/
theorem quit_commands_terminate_witness :
    runShell (fun _ _ => EngineOutcome.success "ok") (DataAnalysisAgent.init "data.csv")
      [ShellEvent.line "QUIT", ShellEvent.line "other"] =
      (DataAnalysisAgent.init "data.csv", 0) ∧
    classify "QUIT" = ShellAction.quit := by
  have h := quit_commands_terminate "QUIT" (fun _ _ => EngineOutcome.success "ok")
    (DataAnalysisAgent.init "data.csv") [ShellEvent.line "other"]
  exact ⟨(h.2.2.2.2 (by decide)).1, h.2.2.1⟩

/-- A character that Python `str.strip()` removes is left unchanged by
`str.lower()`. -/
theorem toLower_space_eq (c : Char) (h : pyIsSpace c = true) : Char.toLower c = c := by
  simp only [pyIsSpace, Bool.or_eq_true, decide_eq_true_eq] at h
  unfold Char.toLower
  rw [if_neg]
  intro hc
  omega

/-- Lowercasing fixes a character list made only of whitespace. -/
theorem map_toLower_allspace (l : List Char) (hall : ∀ c ∈ l, pyIsSpace c) :
    l.map Char.toLower = l := by
  induction l with
  | nil => rfl
  | cons c cs ih =>
      simp only [List.map_cons, List.cons.injEq]
      exact ⟨toLower_space_eq c (hall c (by simp)),
             ih fun x hx => hall x (List.mem_cons_of_mem _ hx)⟩

/-- A string whose characters all strip away is fixed by lowercasing. -/
theorem pyLower_allspace (w : String) (hall : ∀ c ∈ w.data, pyIsSpace c) :
    pyLower w = w := by
  obtain ⟨l⟩ := w
  simp only [pyLower]
  congr 1
  exact map_toLower_allspace l hall

/-- A string stripping to empty consists only of whitespace characters. -/
theorem pyStrip_eq_empty (w : String) (h : pyStrip w = "") :
    ∀ c ∈ w.data, pyIsSpace c := by
  have hdata : (w.data.dropWhile pyIsSpace).rdropWhile pyIsSpace = [] :=
    congrArg String.data h
  cases hdrop : w.data.dropWhile pyIsSpace with
  | nil => exact List.dropWhile_eq_nil_iff.mp hdrop
  | cons c l =>
      exfalso
      rw [hdrop] at hdata
      have hmem : pyIsSpace c := List.rdropWhile_eq_nil_iff.mp hdata c (by simp)
      have hhead : ¬pyIsSpace c := by
        have := List.head?_dropWhile_not pyIsSpace w.data
        rw [hdrop] at this
        simpa using this
      exact hhead hmem

/-- A whitespace-only line matches no command word. -/
theorem allspace_not_command (w : String) (hall : ∀ c ∈ w.data, pyIsSpace c) :
    pyLower w ∉ quitCommands ∧ pyLower w ∉ clearCommands ∧ pyLower w ∉ historyCommands := by
  rw [pyLower_allspace w hall]
  refine ⟨fun hmem => ?_, fun hmem => ?_, fun hmem => ?_⟩
  · simp only [quitCommands, List.mem_cons, List.not_mem_nil, or_false] at hmem
    rcases hmem with h | h | h <;> subst h
    · exact absurd (hall 'q' (by decide)) (by decide)
    · exact absurd (hall 'e' (by decide)) (by decide)
    · exact absurd (hall 'q' (by decide)) (by decide)
  · simp only [clearCommands, List.mem_cons, List.not_mem_nil, or_false] at hmem
    rcases hmem with h | h <;> subst h
    · exact absurd (hall 'c' (by decide)) (by decide)
    · exact absurd (hall 'c' (by decide)) (by decide)
  · simp only [historyCommands, List.mem_cons, List.not_mem_nil, or_false] at hmem
    rcases hmem with h | h <;> subst h
    · exact absurd (hall 'h' (by decide)) (by decide)
    · exact absurd (hall 's' (by decide)) (by decide)

/-- C6: an empty or whitespace-only line is classified as a re-enter prompt,
and deleting such a line anywhere from the event stream changes neither the
final agent state nor the number of `chat` calls the loop makes. -/
theorem whitespace_never_reaches_chat (w : String) (hws : pyStrip w = "") :
    classify w = ShellAction.reprompt ∧
    ∀ (engine : String → List (String × String) → EngineOutcome)
      (a : DataAnalysisAgent) (pre rest : List ShellEvent),
      runShell engine a (pre ++ ShellEvent.line w :: rest) =
        runShell engine a (pre ++ rest) := by
  have hall := pyStrip_eq_empty w hws
  obtain ⟨h1, h2, h3⟩ := allspace_not_command w hall
  have hclass : classify w = ShellAction.reprompt := by
    simp [classify, h1, h2, h3, hws]
  refine ⟨hclass, fun engine a pre rest => ?_⟩
  induction pre generalizing a with
  | nil => simp [runShell, hclass]
  | cons e pre ih =>
      cases e with
      | interrupt => simp [runShell]
      | line s =>
          cases hcs : classify s with
          | quit => simp [runShell, hcs]
          | clearHistory =>
              simp only [List.cons_append, runShell, hcs]
              exact ih _
          | showHistory =>
              simp only [List.cons_append, runShell, hcs]
              exact ih _
          | reprompt =>
              simp only [List.cons_append, runShell, hcs]
              exact ih _
          | ask q =>
              simp only [List.cons_append, runShell, hcs, List.append_eq]
              rw [ih]

/-- C6 witness: a line of three spaces inserted between two questions leaves
the run of the loop unchanged. -/
theorem whitespace_never_reaches_chat_witness :
    classify "   " = ShellAction.reprompt ∧
    runShell (fun q _ => EngineOutcome.success q) (DataAnalysisAgent.init "data.csv")
        [ShellEvent.line "what is the mean age", ShellEvent.line "   ",
         ShellEvent.line "plot it"] =
      runShell (fun q _ => EngineOutcome.success q) (DataAnalysisAgent.init "data.csv")
        [ShellEvent.line "what is the mean age", ShellEvent.line "plot it"] := by
  have h := whitespace_never_reaches_chat "   " (by decide)
  exact ⟨h.1, h.2 (fun q _ => EngineOutcome.success q) (DataAnalysisAgent.init "data.csv")
    [ShellEvent.line "what is the mean age"] [ShellEvent.line "plot it"]⟩

/-- C7: when the credential is absent or the dataset file does not exist,
`main` prints an error, does not enter the interactive loop, and still
returns normally, so the process exit status stays 0 — as it does on every
run, including normal quit and interrupt, since `main` never sets an exit
code. -/
theorem startup_failure_no_crash (env : Environment)
    (engine : String → List (String × String) → EngineOutcome) (events : List ShellEvent) :
    ((env.openai_api_key = none ∨ env.csv_exists = false) →
      (pyMain env engine events).enteredLoop = false ∧
      (pyMain env engine events).errors ≠ []) ∧
    (pyMain env engine events).exitCode = 0 := by
  constructor
  · intro h
    rcases h with h | h
    · simp [pyMain, load_environment, h]
    · cases hkey : env.openai_api_key with
      | none => simp [pyMain, load_environment, hkey]
      | some k =>
          by_cases hk : k = ""
          · simp [pyMain, load_environment, hkey, hk]
          · simp [pyMain, load_environment, hkey, hk, h]
  · cases hkey : env.openai_api_key with
    | none => simp [pyMain, load_environment, hkey]
    | some k =>
        by_cases hk : k = ""
        · simp [pyMain, load_environment, hkey, hk]
        · by_cases hcsv : env.csv_exists <;>
            simp [pyMain, load_environment, hkey, hk, hcsv]

/-- C7 witness: with `OPENAI_API_KEY` absent, `main` reports an error, skips
the loop, and exits with status 0. -/
theorem startup_failure_no_crash_witness :
    (pyMain ⟨none, true⟩ (fun _ _ => EngineOutcome.success "ok") []).enteredLoop = false ∧
    (pyMain ⟨none, true⟩ (fun _ _ => EngineOutcome.success "ok") []).errors ≠ [] ∧
    (pyMain ⟨none, true⟩ (fun _ _ => EngineOutcome.success "ok") []).exitCode = 0 := by
  have h := startup_failure_no_crash ⟨none, true⟩ (fun _ _ => EngineOutcome.success "ok") []
  exact ⟨(h.1 (Or.inl rfl)).1, (h.1 (Or.inl rfl)).2, h.2⟩

set_option maxRecDepth 100000 in
/-- C8: the executor is configured with `max_iterations = 10`, the
authoritative bound on reasoning cycles, while the embedded prompt text
itself still contains the inconsistent phrase `"zero or 3 times"`. -/
theorem max_iterations_is_ten (csv : String) :
    (DataAnalysisAgent.init csv).agent_executor.max_iterations = 10 ∧
    ∃ s t, (DataAnalysisAgent.init csv).prompt_template.template =
      s ++ "zero or 3 times" ++ t := by
  refine ⟨rfl, "Here is a CSV file located at {csv_file_path}. Please answer the following questions as best you can. You have access to the following tools:

            {tools}

            Chat history from previous conversations:
            {chat_history}

            Use the following format:

            Question: the input question you must answer
            Thought: you should always think about what to do
            Action: the action to take, should be one of [{tool_names}]
            Action Input: the input to the action
            Observation: the result of the action
            ... (this Thought/Action/Action Input/Observation can be repeated ", ")
            Thought: I now know the final answer
            Final Answer: the final answer to the original input question

            Begin!

            Question: {query}
            {agent_scratchpad}", ?_⟩
  rfl

/-- C9: a `chat` call leaves every agent component other than the history
unchanged — dataset path, tool, tool list, prompt template, executor — and
changes the history only by appending the single turn whose answer text it
returns, whether the engine succeeded or failed. -/
theorem chat_atomic_frame (a : DataAnalysisAgent) (query : String) (result : EngineOutcome) :
    (a.chat query result).2.csv_file_path = a.csv_file_path ∧
    (a.chat query result).2.python_tool = a.python_tool ∧
    (a.chat query result).2.tools = a.tools ∧
    (a.chat query result).2.prompt_template = a.prompt_template ∧
    (a.chat query result).2.agent_executor = a.agent_executor ∧
    ∃ ans, (a.chat query result).2.chat_history = a.chat_history ++ [(query, ans)] ∧
      (a.chat query result).1 = ans := by
  cases result with
  | success out => exact ⟨rfl, rfl, rfl, rfl, rfl, out, rfl, rfl⟩
  | failure e => exact ⟨rfl, rfl, rfl, rfl, rfl, "Execution error: " ++ e, rfl, rfl⟩

/-- Lowercasing cannot turn a line whose first character is whitespace into a
word whose first character is not whitespace. -/
theorem pyLower_head_space (w : String) (c : Char) (cs : List Char)
    (hw : w.data = c :: cs) (hc : pyIsSpace c = true) (cmd : String) (d : Char)
    (ds : List Char) (hcmd : cmd.data = d :: ds) (hd : pyIsSpace d = false) :
    pyLower w ≠ cmd := by
  intro h
  have h2 : w.data.map Char.toLower = cmd.data := congrArg String.data h
  rw [hw, hcmd, List.map_cons] at h2
  have h3 : Char.toLower c = d := ((List.cons.injEq _ _ _ _).mp h2).1
  rw [toLower_space_eq c hc] at h3
  rw [h3, hd] at hc
  exact Bool.noConfusion hc

/-- Lowercasing cannot turn a line whose last character is whitespace into a
word whose last character is not whitespace. -/
theorem pyLower_last_space (w : String) (c : Char) (cs : List Char)
    (hw : w.data = cs ++ [c]) (hc : pyIsSpace c = true) (cmd : String) (d : Char)
    (ds : List Char) (hcmd : cmd.data = ds ++ [d]) (hd : pyIsSpace d = false) :
    pyLower w ≠ cmd := by
  intro h
  have h2 : w.data.map Char.toLower = cmd.data := congrArg String.data h
  rw [hw, hcmd, List.map_append, List.map_cons, List.map_nil] at h2
  have h3 := congrArg List.getLast? h2
  rw [List.getLast?_concat, List.getLast?_concat] at h3
  have h4 : Char.toLower c = d := Option.some.inj h3
  rw [toLower_space_eq c hc] at h4
  rw [h4, hd] at hc
  exact Bool.noConfusion hc

/-- A line with whitespace at either end never lowercases to one of the
shell's command words. -/
theorem space_edge_not_command (w : String)
    (hsp : (∃ c cs, w.data = c :: cs ∧ pyIsSpace c = true) ∨
           (∃ c cs, w.data = cs ++ [c] ∧ pyIsSpace c = true)) :
    pyLower w ∉ quitCommands ∧ pyLower w ∉ clearCommands ∧ pyLower w ∉ historyCommands := by
  have key : ∀ cmd : String, (∃ d ds, cmd.data = d :: ds ∧ pyIsSpace d = false) →
      (∃ d ds, cmd.data = ds ++ [d] ∧ pyIsSpace d = false) → pyLower w ≠ cmd := by
    rintro cmd ⟨d, ds, hcmd, hd⟩ ⟨d', ds', hcmd', hd'⟩
    rcases hsp with ⟨c, cs, hw, hc⟩ | ⟨c, cs, hw, hc⟩
    · exact pyLower_head_space w c cs hw hc cmd d ds hcmd hd
    · exact pyLower_last_space w c cs hw hc cmd d' ds' hcmd' hd'
  refine ⟨fun hmem => ?_, fun hmem => ?_, fun hmem => ?_⟩
  · simp only [quitCommands, List.mem_cons, List.not_mem_nil, or_false] at hmem
    rcases hmem with h | h | h
    · exact key "quit" ⟨'q', ['u', 'i', 't'], by decide, by decide⟩
        ⟨'t', ['q', 'u', 'i'], by decide, by decide⟩ h
    · exact key "exit" ⟨'e', ['x', 'i', 't'], by decide, by decide⟩
        ⟨'t', ['e', 'x', 'i'], by decide, by decide⟩ h
    · exact key "q" ⟨'q', [], by decide, by decide⟩ ⟨'q', [], by decide, by decide⟩ h
  · simp only [clearCommands, List.mem_cons, List.not_mem_nil, or_false] at hmem
    rcases hmem with h | h
    · exact key "clear" ⟨'c', ['l', 'e', 'a', 'r'], by decide, by decide⟩
        ⟨'r', ['c', 'l', 'e', 'a'], by decide, by decide⟩ h
    · exact key "clear history"
        ⟨'c', ['l', 'e', 'a', 'r', ' ', 'h', 'i', 's', 't', 'o', 'r', 'y'], by decide, by decide⟩
        ⟨'y', ['c', 'l', 'e', 'a', 'r', ' ', 'h', 'i', 's', 't', 'o', 'r'], by decide, by decide⟩ h
  · simp only [historyCommands, List.mem_cons, List.not_mem_nil, or_false] at hmem
    rcases hmem with h | h
    · exact key "history" ⟨'h', ['i', 's', 't', 'o', 'r', 'y'], by decide, by decide⟩
        ⟨'y', ['h', 'i', 's', 't', 'o', 'r'], by decide, by decide⟩ h
    · exact key "show history"
        ⟨'s', ['h', 'o', 'w', ' ', 'h', 'i', 's', 't', 'o', 'r', 'y'], by decide, by decide⟩
        ⟨'y', ['s', 'h', 'o', 'w', ' ', 'h', 'i', 's', 't', 'o', 'r'], by decide, by decide⟩ h

/-- C10: command matching compares the whole lowercased line without
trimming, so a line that strips to a command word but carries surrounding
whitespace matches no command, passes the non-empty check, and is forwarded
verbatim to `chat` as a question, counting as one `chat` call. -/
theorem untrimmed_command_forwarded (w : String)
    (hcmd : pyLower (pyStrip w) ∈ quitCommands ++ clearCommands ++ historyCommands)
    (hne : w ≠ pyStrip w) :
    classify w = ShellAction.ask w ∧
    ∀ (engine : String → List (String × String) → EngineOutcome)
      (a : DataAnalysisAgent) (rest : List ShellEvent),
      runShell engine a (ShellEvent.line w :: rest) =
        ((runShell engine ((a.chat w (engine w a.chat_history)).2) rest).1,
         (runShell engine ((a.chat w (engine w a.chat_history)).2) rest).2 + 1) := by
  have hstrip_ne : pyStrip w ≠ "" := by
    intro h0
    rw [h0] at hcmd
    exact absurd hcmd (by decide)
  have hwne : w.data ≠ [] := by
    intro h0
    have hw0 : w = "" := String.ext h0
    rw [hw0] at hne
    exact hne (by decide)
  have hsp : (∃ c cs, w.data = c :: cs ∧ pyIsSpace c = true) ∨
             (∃ c cs, w.data = cs ++ [c] ∧ pyIsSpace c = true) := by
    obtain ⟨c, cs, hw⟩ : ∃ c cs, w.data = c :: cs := by
      cases hd : w.data with
      | nil => exact absurd hd hwne
      | cons c cs => exact ⟨c, cs, rfl⟩
    by_cases hc : pyIsSpace c
    · exact Or.inl ⟨c, cs, hw, hc⟩
    · have hdw : w.data.dropWhile pyIsSpace = w.data := by
        rw [hw]
        exact List.dropWhile_cons_of_neg (by simpa using hc)
      have hlast : pyIsSpace (w.data.getLast hwne) = true := by
        by_contra hlast
        apply hne
        apply String.ext
        show w.data = ((w.data.dropWhile pyIsSpace).rdropWhile pyIsSpace)
        rw [hdw]
        exact (List.rdropWhile_eq_self_iff.mpr fun hl => by simpa using hlast).symm
      exact Or.inr ⟨w.data.getLast hwne, w.data.dropLast,
        (List.dropLast_concat_getLast hwne).symm, hlast⟩
  obtain ⟨n1, n2, n3⟩ := space_edge_not_command w hsp
  have hclass : classify w = ShellAction.ask w := by
    simp only [classify]
    rw [if_neg n1, if_neg n2, if_neg n3, if_neg hstrip_ne]
  refine ⟨hclass, fun engine a rest => ?_⟩
  simp [runShell, hclass]

/-- C10 witness: the line `" history"` (leading space) is no command and is
handed to `chat` verbatim as a question. -/
theorem untrimmed_command_forwarded_witness :
    classify " history" = ShellAction.ask " history" ∧
    runShell (fun _ _ => EngineOutcome.success "ok") (DataAnalysisAgent.init "data.csv")
        [ShellEvent.line " history"] =
      ((runShell (fun _ _ => EngineOutcome.success "ok")
          (((DataAnalysisAgent.init "data.csv").chat " history"
            (EngineOutcome.success "ok")).2) []).1,
       (runShell (fun _ _ => EngineOutcome.success "ok")
          (((DataAnalysisAgent.init "data.csv").chat " history"
            (EngineOutcome.success "ok")).2) []).2 + 1) := by
  have h := untrimmed_command_forwarded " history" (by decide) (by decide)
  exact ⟨h.1, h.2 (fun _ _ => EngineOutcome.success "ok")
    (DataAnalysisAgent.init "data.csv") []⟩
